import Mathlib

/-!
Shallow embedding of the alias-bootstrap pipeline of the mc command-line
client (command alias set): TLS trust negotiation for self-signed
certificates, S3 signature-dialect probing, federated (LDAP/STS) identity
exchange and construction of the persisted alias record.  The definitions
follow the Go source; network, clock, standard-input and file-system
effects appear as explicit oracle parameters, and times are unix
nanoseconds (the resolution of Go durations).
-/

namespace MC

/-- Byte strings (Go byte slices) are modelled as lists of naturals. -/
abbrev Bytes := List Nat

/-- An X.509 certificate, keeping exactly the fields the bootstrap code
reads: the subject and authority key identifiers compared by the
self-signed check, the raw subject-public-key info that is fingerprinted,
and the raw certificate bytes that get stored. -/
structure Cert where
  subjectKeyId : Bytes
  authorityKeyId : Bytes
  rawSubjectPublicKeyInfo : Bytes
  raw : Bytes
deriving DecidableEq, Repr

/-- A certificate pool (Go x509.CertPool), as the list of its certificates. -/
abbrev CertPool := List Cert

/-- AddCert of x509.CertPool: appends the certificate to the pool. -/
def addCert (pool : CertPool) (c : Cert) : CertPool := pool ++ [c]

/-- TLS client configuration, keeping the fields the bootstrap code sets.
A rootCAs value of none is Go nil (the system default verifier). -/
structure TLSClientConfig where
  rootCAs : Option CertPool
  insecureSkipVerify : Bool
  minVersion : Nat
deriving DecidableEq, Repr

/-- Characters of a URL scheme: everything before the first "://". -/
def schemeAux : List Char → Option (List Char)
  | ':' :: '/' :: '/' :: _ => some []
  | c :: rest => (schemeAux rest).map (fun l => c :: l)
  | [] => none

/-- Modelled from the spec: the helper getScheme (defined outside the
provided sources) extracts the URL scheme, the part of the endpoint before
"://" (empty when there is none); spec 4.1 step 1 and 4.3 step 1 dispatch
on whether this scheme is the unencrypted "http". -/
def getScheme (url : String) : String :=
  match schemeAux url.data with
  | some l => String.mk l
  | none => ""

/-- prepareStsClient: builds the HTTP client used for the federated (STS)
identity exchange.  Mirrors the Go function line by line: when the
process-wide pool globalRootCAs is loaded, the pinned peer certificate (if
any) is added to it and the pool is used; then the peer certificate is
added a second time (a run-time panic, modelled as none, when the pool is
nil while a peer certificate is present); certificate verification is
skipped exactly when the scheme is not "http" and a peer certificate is
present. -/
def prepareStsClient (globalRootCAs : Option CertPool) (peerCert : Option Cert)
    (url : String) : Option TLSClientConfig :=
  let cas : Option CertPool :=
    match globalRootCAs, peerCert with
    | some pool, some c => some (addCert pool c)
    | some pool, none => some pool
    | none, _ => none
  let afterSecondAdd : Option (Option CertPool) :=
    match peerCert, cas with
    | some c, some pool => some (some (addCert pool c))
    | some _, none => none
    | none, _ => some cas
  match afterSecondAdd with
  | none => none
  | some cas =>
      some { rootCAs := cas,
             insecureSkipVerify := (getScheme url != "http") && peerCert.isSome,
             minVersion := 771 }

example : getScheme "https://server.example" = "https" := rfl
example : getScheme "http://h" = "http" := rfl
example : getScheme "h" = "" := rfl

/-- A probe.Error of the mc probe package: the underlying cause plus the
call trace accumulated by Trace (each Trace call appends its arguments). -/
structure ProbeError where
  cause : String
  trace : List String
deriving DecidableEq, Repr

/-- Trace of probe.Error: appends the given arguments to the call trace of
the same error and returns it. -/
def ProbeError.traceAdd (e : ProbeError) (args : List String) : ProbeError :=
  { e with trace := e.trace ++ args }

/-- Whether an error value mentions a string at all, either as its
underlying cause or anywhere in its accumulated trace. -/
def ProbeError.mentions (e : ProbeError) (s : String) : Prop :=
  e.cause = s ∨ s ∈ e.trace

instance (e : ProbeError) (s : String) : Decidable (e.mentions s) := by
  unfold ProbeError.mentions
  infer_instance

/-- Outcome of the Stat call issued by one probe attempt, as classified by
probeS3Signature: the typed BucketDoesNotExist error, an error response
whose code is AccessDenied, success, or any other error (carrying its
message). -/
inductive StatResult where
  | ok
  | bucketDoesNotExist
  | accessDenied
  | otherError (msg : String)
deriving DecidableEq, Repr

/-- Outcome of one probe attempt under a given signature dialect: either
client construction (S3New) failed with an error, or the Stat call ran and
produced a StatResult.  A value of type String → AttemptOutcome is the
network oracle mapping each signature dialect to what the server did. -/
inductive AttemptOutcome where
  | clientError (e : ProbeError)
  | stat (r : StatResult)
deriving DecidableEq, Repr

/-- The inner probeSignatureType closure of probeS3Signature: issue a Stat
against the probe bucket signed with dialect stype.  BucketDoesNotExist and
AccessDenied both mean the dialect was accepted (the request reached
authorization), success trivially does too; any other Stat error is
returned traced with the dialect, and an S3New failure is returned as is. -/
def probeSignatureType (attempt : String → AttemptOutcome) (stype : String) :
    Except ProbeError String :=
  match attempt stype with
  | AttemptOutcome.clientError e => Except.error e
  | AttemptOutcome.stat r =>
    match r with
    | StatResult.bucketDoesNotExist => Except.ok stype
    | StatResult.accessDenied => Except.ok stype
    | StatResult.otherError m => Except.error (ProbeError.traceAdd ⟨m, []⟩ [stype])
    | StatResult.ok => Except.ok stype

/-- probeS3Signature: auto probe of the server signature dialect.  Tries
dialect s3v4; if that attempt fails, tries s3v2; if both fail, returns the
s3v2 attempt error traced with both dialect names. -/
def probeS3Signature (attempt : String → AttemptOutcome) :
    Except ProbeError String :=
  match probeSignatureType attempt "s3v4" with
  | Except.ok stype => Except.ok stype
  | Except.error _ =>
    match probeSignatureType attempt "s3v2" with
    | Except.ok stype => Except.ok stype
    | Except.error e => Except.error (ProbeError.traceAdd e ["s3v4", "s3v2"])

/-- An http.Transport, keeping the field the bootstrap code inspects. -/
structure Transport where
  tlsClientConfig : Option TLSClientConfig
deriving DecidableEq, Repr

/-- The S3 client Config assembled for an alias, keeping the fields the
bootstrap code reads or writes. -/
structure Config where
  accessKey : String
  secretKey : String
  sessionToken : String
  hostURL : String
  signature : String
  path : String
  insecure : Bool
  transport : Option Transport
deriving DecidableEq, Repr

/-- The persisted alias configuration record (aliasConfigV10, declared
outside the provided sources; its fields are those the provided code
populates: both the long-lived keys and the separate sts fields).  The
expireTime field is unix nanoseconds; 0 is both time.Unix(0, 0) and the
zero timestamp of this model. -/
structure AliasConfigV10 where
  url : String
  accessKey : String
  secretKey : String
  api : String
  path : String
  sessionToken : String
  aType : String
  stsAccessKey : String
  stsSecretKey : String
  stsSessionTk : String
  expireTime : Int
deriving DecidableEq, Repr

/-- Modelled from the spec: NewS3Config (defined outside the provided
sources) builds the initial S3 Config from the endpoint URL and an alias
configuration; its signature field is filled in afterwards by
BuildS3Config (spec 4.4: the dialect comes from the explicit flag or from
probing) and its transport starts unset. -/
def NewS3Config (url : String) (aliasCfg : AliasConfigV10) : Config :=
  { accessKey := aliasCfg.accessKey
    secretKey := aliasCfg.secretKey
    sessionToken := aliasCfg.sessionToken
    hostURL := url
    signature := ""
    path := aliasCfg.path
    insecure := false
    transport := none }

/-- configurePeerCertificate: adds the pinned peer certificate to the TLS
root CAs of an S3 Config, mirroring the three-way switch of the Go code.
The process-wide pool is passed and returned explicitly (the Go code
mutates the global x509.CertPool in place; pointer aliasing between the
global pool and the pool inside an existing transport is not tracked by
this value-level model, and no claim depends on it). -/
def configurePeerCertificate (globalRootCAs : Option CertPool) (s3Config : Config)
    (peerCert : Cert) : Option CertPool × Config :=
  match s3Config.transport with
  | none =>
    let roots : Option CertPool := match globalRootCAs with
      | some pool => some (addCert pool peerCert)
      | none => none
    let tlsCfg : TLSClientConfig :=
      { rootCAs := roots, insecureSkipVerify := false, minVersion := 0 }
    (roots, { s3Config with transport := some { tlsClientConfig := some tlsCfg } })
  | some tr =>
    match tr.tlsClientConfig with
    | none =>
      let roots : Option CertPool := match globalRootCAs with
        | some pool => some (addCert pool peerCert)
        | none => none
      let tlsCfg : TLSClientConfig :=
        { rootCAs := roots, insecureSkipVerify := false, minVersion := 0 }
      (roots, { s3Config with transport := some { tr with tlsClientConfig := some tlsCfg } })
    | some tlsCfg =>
      match tlsCfg.rootCAs with
      | none =>
        let roots : Option CertPool := match globalRootCAs with
          | some pool => some (addCert pool peerCert)
          | none => none
        let tlsCfg2 : TLSClientConfig :=
          { rootCAs := roots, insecureSkipVerify := false, minVersion := 0 }
        (roots, { s3Config with transport := some { tr with tlsClientConfig := some tlsCfg2 } })
      | some pool =>
        let tlsCfg2 : TLSClientConfig := { tlsCfg with rootCAs := some (addCert pool peerCert) }
        (globalRootCAs,
          { s3Config with transport := some { tr with tlsClientConfig := some tlsCfg2 } })

/-- BuildS3Config: constructs the S3 Config for an alias and auto-probes
the signature dialect when no explicit one was supplied.  The second
component counts how many times probeS3Signature was invoked.  When the
probe fails the error is traced with the url, the keys, the (empty)
probed dialect and the path, as in the Go code. -/
def BuildS3Config (attempt : String → AttemptOutcome)
    (globalRootCAs : Option CertPool)
    (url accessKey secretKey sessionToken api path : String)
    (peerCert : Option Cert) : Except ProbeError Config × Nat :=
  let s3Config := NewS3Config url
    { url := url, accessKey := accessKey, secretKey := secretKey,
      sessionToken := sessionToken, api := "", path := path, aType := "",
      stsAccessKey := "", stsSecretKey := "", stsSessionTk := "", expireTime := 0 }
  let s3Config := match peerCert with
    | some c => (configurePeerCertificate globalRootCAs s3Config c).2
    | none => s3Config
  if api != "" then
    (Except.ok { s3Config with signature := api }, 0)
  else
    match probeS3Signature attempt with
    | Except.error e =>
        (Except.error (ProbeError.traceAdd e [url, accessKey, secretKey, "", path]), 1)
    | Except.ok sig => (Except.ok { s3Config with signature := sig }, 1)

/-- Substring containment on character lists (Go strings.Contains). -/
def charListContains (hay pat : List Char) : Bool :=
  match hay with
  | [] => pat.isEmpty
  | _ :: rest => pat.isPrefixOf hay || charListContains rest pat

/-- Substring containment on strings (Go strings.Contains). -/
def strContainsSub (s pat : String) : Bool :=
  charListContains s.data pat.data

/-- ASCII lower-casing of one character (the inputs compared by the code
are plain ASCII answers and flag values). -/
def charLower (c : Char) : Char :=
  if 'A' ≤ c ∧ c ≤ 'Z' then Char.ofNat (c.toNat + 32) else c

/-- ASCII lower-casing of a string (Go strings.ToLower on ASCII input). -/
def lowerString (s : String) : String :=
  String.mk (s.data.map charLower)

example : strContainsSub "tls: failed, certificate signed by unknown authority!"
    "certificate signed by unknown authority" = true := rfl
example : strContainsSub "connection refused" "certificate signed by unknown authority" = false := rfl
example : lowerString "YES\n" = "yes\n" := rfl

/-- The error text that identifies the unknown-authority TLS failure which
trust negotiation handles itself. -/
def unknownAuthority : String := "certificate signed by unknown authority"

/-- Outcome of promptTrustSelfSignedCert.  The Go function returns a
certificate pointer and a probe error; the constructors additionally record
the return site: noCert is (nil, nil), pinned is the successfully confirmed
and stored certificate, untrustedIssuer is the rejection of a certificate
that is not self-issued (the Go code returns the original TLS error there),
userDeclined is the rejection of a non-affirmative confirmation (likewise
carrying the original TLS error), and failure is every propagated error. -/
inductive TrustOutcome where
  | noCert
  | pinned (c : Cert)
  | untrustedIssuer (tlsErr : String)
  | userDeclined (tlsErr : String)
  | failure (e : String)
deriving DecidableEq, Repr

/-- promptTrustSelfSignedCert: connects to the endpoint and, when the peer
certificate is not system-wide trusted, runs the trust-on-first-use
ceremony.  Oracles stand for the effects: tlsAttempt is the error of the
initial request made with the process-wide roots (none means it
succeeded), fetchResult is the outcome of fetchPeerCertificate,
answerResult is the line read from standard input (including its trailing
newline), writeResult is the error of the certificate-store write (none
means it succeeded).  The second component lists the (alias, certificate)
pairs successfully written to the certificate store. -/
def promptTrustSelfSignedCert (tlsAttempt : Option String)
    (fetchResult : Except String Cert) (answerResult : Except String String)
    (writeResult : Option String) (url aliasName : String) :
    TrustOutcome × List (String × Cert) :=
  if getScheme url == "http" then
    (TrustOutcome.noCert, [])
  else
    match tlsAttempt with
    | none => (TrustOutcome.noCert, [])
    | some tlsErr =>
      if !(strContainsSub tlsErr unknownAuthority) then
        (TrustOutcome.failure tlsErr, [])
      else
        match fetchResult with
        | Except.error e => (TrustOutcome.failure e, [])
        | Except.ok peerCert =>
          if peerCert.subjectKeyId != peerCert.authorityKeyId then
            (TrustOutcome.untrustedIssuer tlsErr, [])
          else
            match answerResult with
            | Except.error e => (TrustOutcome.failure e, [])
            | Except.ok answer =>
              let answer := lowerString answer
              if answer != "y\n" && answer != "yes\n" then
                (TrustOutcome.userDeclined tlsErr, [])
              else
                match writeResult with
                | some e => (TrustOutcome.failure e, [])
                | none => (TrustOutcome.pinned peerCert, [(aliasName, peerCert)])

/-- One second in unix nanoseconds (Go durations count nanoseconds). -/
def Second : Int := 1000000000

/-- One minute in unix nanoseconds. -/
def Minute : Int := 60 * Second

/-- One hour in unix nanoseconds. -/
def Hour : Int := 60 * Minute

/-- StsDefaultExpire: the fixed requested validity of a federated session. -/
def StsDefaultExpire : Int := Hour

/-- StsWindowTime: the fixed safety window subtracted from the validity. -/
def StsWindowTime : Int := 10 * Minute

/-- ASCII whitespace test for strTrim. -/
def isSpaceChar (c : Char) : Bool :=
  c == ' ' || c == '\t' || c == '\n' || c == '\r'

/-- Go strings.TrimSpace, restricted to ASCII whitespace (the only input
it is applied to is the lookup command-line flag). -/
def strTrim (s : String) : String :=
  String.mk (((s.data.dropWhile isSpaceChar).reverse.dropWhile isSpaceChar).reverse)

/-- Resolution of the credentials type: an empty or auto flag consults the
CONSOLE_LDAP_ENABLED environment variable (defaulting to off) and yields
ldap exactly when that value lower-cases to on; any other flag value is
kept unchanged (the Go switch leaves ctype untouched in the normal, ldap
and default cases). -/
def resolveCredType (ctypeFlag : String) (ldapEnv : Option String) : String :=
  match ctypeFlag with
  | "" => if lowerString (ldapEnv.getD "off") == "on" then "ldap" else "normal"
  | "auto" => if lowerString (ldapEnv.getD "off") == "on" then "ldap" else "normal"
  | _ => ctypeFlag

/-- The message value returned by setAlias and printed by the command. -/
structure AliasMessage where
  op : String
  aliasName : String
  url : String
  accessKey : String
  secretKey : String
  api : String
  path : String
deriving DecidableEq, Repr

/-- setAlias: stores the alias configuration under the alias key in the
loaded configuration (a Go map, modelled as an association list with the
newest binding in front) and returns the message echoing the record.  The
configuration file load and save are the surrounding persistence, modelled
by passing the alias map in and out. -/
def setAlias (aliasName : String) (aliasCfgV10 : AliasConfigV10)
    (mcCfgAliases : List (String × AliasConfigV10)) :
    List (String × AliasConfigV10) × AliasMessage :=
  ((aliasName, aliasCfgV10) :: mcCfgAliases.filter (fun p => p.1 != aliasName),
   { op := "", aliasName := aliasName, url := aliasCfgV10.url,
     accessKey := aliasCfgV10.accessKey, secretKey := aliasCfgV10.secretKey,
     api := aliasCfgV10.api, path := aliasCfgV10.path })

/-- Lookup of an alias in the stored configuration map. -/
def lookupAlias (m : List (String × AliasConfigV10)) (aliasName : String) :
    Option AliasConfigV10 :=
  match m with
  | [] => none
  | (k, v) :: rest => if k == aliasName then some v else lookupAlias rest aliasName

/-- The distinct fatal-exit sites of mainAliasSet. -/
inductive AliasSetError where
  | trustError (e : String)
  | stsError (e : String)
  | buildError (e : ProbeError)
deriving DecidableEq, Repr

/-- mainAliasSet: the alias set command from the point where flags and
keys are in hand (argument syntax checking, which only exits early, is
elided).  Oracles: ldapEnv is the CONSOLE_LDAP_ENABLED environment
variable; tlsAttempt, fetchResult, answerResult and writeResult feed the
embedded promptTrustSelfSignedCert; stsResult is the outcome of
getStsWithLDAP (the keys, secret and session token granted by the STS
server); now is the clock read in the ldap branch; attempt feeds the
embedded signature probe.  On success it returns the updated alias map and
the printed message. -/
def mainAliasSet (deprecated : Bool) (lookupFlag : String)
    (aliasName url api path ctypeFlag : String) (ldapEnv : Option String)
    (accessKey secretKey : String)
    (globalInsecure globalJSON stdoutIsTerminal : Bool)
    (tlsAttempt : Option String) (fetchResult : Except String Cert)
    (answerResult : Except String String) (writeResult : Option String)
    (stsResult : Except String (String × String × String)) (now : Int)
    (attempt : String → AttemptOutcome) (globalRootCAs : Option CertPool)
    (mcCfgAliases : List (String × AliasConfigV10)) :
    Except AliasSetError (List (String × AliasConfigV10) × AliasMessage) :=
  let path := if deprecated then
      match lowerString (strTrim lookupFlag) with
      | "" => "auto"
      | "auto" => "auto"
      | "path" => "on"
      | "dns" => "off"
      | _ => path
    else path
  let ctype := resolveCredType ctypeFlag ldapEnv
  let promptRes : Except String (Option Cert) :=
    if !globalInsecure && !globalJSON && stdoutIsTerminal then
      match promptTrustSelfSignedCert tlsAttempt fetchResult answerResult writeResult
          url aliasName with
      | (TrustOutcome.noCert, _) => Except.ok none
      | (TrustOutcome.pinned c, _) => Except.ok (some c)
      | (TrustOutcome.untrustedIssuer e, _) => Except.error e
      | (TrustOutcome.userDeclined e, _) => Except.error e
      | (TrustOutcome.failure e, _) => Except.error e
    else Except.ok none
  match promptRes with
  | Except.error e => Except.error (AliasSetError.trustError e)
  | Except.ok peerCert =>
    let stsStep : Except AliasSetError (String × String × String × Int) :=
      if ctype == "ldap" then
        match stsResult with
        | Except.error e => Except.error (AliasSetError.stsError e)
        | Except.ok (ak, sk, tk) =>
            Except.ok (ak, sk, tk, now + StsDefaultExpire + (-StsWindowTime))
      else
        Except.ok (accessKey, secretKey, "", 0)
    match stsStep with
    | Except.error e => Except.error e
    | Except.ok (stsAccessKey, stsSecretKey, stsSessionTk, stsExpireTime) =>
      match (BuildS3Config attempt globalRootCAs url stsAccessKey stsSecretKey
          stsSessionTk api path peerCert).1 with
      | Except.error e => Except.error (AliasSetError.buildError e)
      | Except.ok s3Config =>
        let res := setAlias aliasName
          { url := s3Config.hostURL, accessKey := accessKey, secretKey := secretKey,
            api := s3Config.signature, path := path, sessionToken := "",
            aType := ctype, stsAccessKey := stsAccessKey,
            stsSecretKey := stsSecretKey, stsSessionTk := stsSessionTk,
            expireTime := stsExpireTime } mcCfgAliases
        Except.ok (res.1, { res.2 with op := if deprecated then "add" else "set" })

/-- A sample certificate whose subject key identifier equals its authority
key identifier (a self-issued certificate). -/
def certSelf : Cert :=
  { subjectKeyId := [1], authorityKeyId := [1], rawSubjectPublicKeyInfo := [2], raw := [3] }

/-- A sample certificate whose subject key identifier differs from its
authority key identifier (issued by a different certificate). -/
def certOther : Cert :=
  { subjectKeyId := [1], authorityKeyId := [2], rawSubjectPublicKeyInfo := [3], raw := [4] }

/-- A network oracle under which the Stat of both probe attempts fails with
an error that is neither BucketDoesNotExist nor AccessDenied. -/
def attBothMismatch : String → AttemptOutcome := fun s =>
  if s == "s3v4" then AttemptOutcome.stat (StatResult.otherError "cause-v4")
  else AttemptOutcome.stat (StatResult.otherError "cause-v2")

/-- A network oracle under which every Stat yields AccessDenied. -/
def attAD : String → AttemptOutcome := fun _ =>
  AttemptOutcome.stat StatResult.accessDenied

/-- Claim C1 (counterexample): for the encrypted endpoint
https://server.example with a just-negotiated pinned certificate, the STS
client is built with certificate verification skipped, refuting the claim
that verification is enabled for every encrypted endpoint (equivalently,
that verification is skipped only for unencrypted endpoints). -/
theorem prepareStsClient_skipVerify_cex :
    getScheme "https://server.example" ≠ "http" ∧
    (prepareStsClient (some []) (some certSelf) "https://server.example").map
        TLSClientConfig.insecureSkipVerify = some true := by
  exact ⟨by decide, rfl⟩

/-- Claim C1 (amended): the STS client skips certificate verification
exactly when the endpoint scheme is not http and a pinned certificate is
present; when no certificate was pinned the trust set is the process-wide
root set unchanged, and when the root pool is loaded and a certificate was
pinned the trust set consists of the process-wide roots together with the
pinned certificate. -/
theorem prepareStsClient_skipVerify_amended (globalRootCAs : Option CertPool)
    (peerCert : Option Cert) (url : String) (cfg : TLSClientConfig)
    (h : prepareStsClient globalRootCAs peerCert url = some cfg) :
    cfg.insecureSkipVerify = ((getScheme url != "http") && peerCert.isSome) ∧
    (peerCert = none → cfg.rootCAs = globalRootCAs) ∧
    (∀ pool c, globalRootCAs = some pool → peerCert = some c →
      ∃ l, cfg.rootCAs = some l ∧ ∀ x, x ∈ l ↔ x ∈ pool ∨ x = c) := by
  cases peerCert with
  | none =>
    cases globalRootCAs with
    | none =>
      simp only [prepareStsClient] at h
      cases h
      simp
    | some pool =>
      simp only [prepareStsClient] at h
      cases h
      simp
  | some c =>
    cases globalRootCAs with
    | none =>
      simp only [prepareStsClient] at h
      cases h
    | some pool =>
      simp only [prepareStsClient] at h
      cases h
      refine ⟨rfl, by simp, ?_⟩
      intro pool2 c2 hp hc
      obtain rfl : pool = pool2 := Option.some.inj hp
      obtain rfl : c = c2 := Option.some.inj hc
      refine ⟨addCert (addCert pool c) c, rfl, ?_⟩
      intro x
      simp [addCert, or_assoc]

/-- Claim C1 (amended, witness): the amended statement evaluated at the
counterexample input. -/
theorem prepareStsClient_skipVerify_amended_witness :
    ({ rootCAs := some [certSelf, certSelf], insecureSkipVerify := true,
       minVersion := 771 } : TLSClientConfig).insecureSkipVerify
      = ((getScheme "https://server.example" != "http") && (some certSelf).isSome) :=
  (prepareStsClient_skipVerify_amended (some []) (some certSelf) "https://server.example"
    { rootCAs := some [certSelf, certSelf], insecureSkipVerify := true, minVersion := 771 }
    rfl).1

/-- Claim C4 (counterexample): when the s3v4 attempt fails with underlying
cause cause-v4 and the s3v2 attempt fails with underlying cause cause-v2,
the exhausted probe returns an error that carries the s3v2 cause and both
dialect names, but mentions the s3v4 underlying cause nowhere, refuting
the claim that the failure carries both underlying causes. -/
theorem probeS3Signature_bothCauses_cex :
    probeSignatureType attBothMismatch "s3v4" = Except.error ⟨"cause-v4", ["s3v4"]⟩ ∧
    probeSignatureType attBothMismatch "s3v2" = Except.error ⟨"cause-v2", ["s3v2"]⟩ ∧
    probeS3Signature attBothMismatch
      = Except.error ⟨"cause-v2", ["s3v2", "s3v4", "s3v2"]⟩ ∧
    ¬ ProbeError.mentions ⟨"cause-v2", ["s3v2", "s3v4", "s3v2"]⟩ "cause-v4" := by
  exact ⟨rfl, rfl, rfl, by decide⟩

/-- Claim C4 (amended): probing tries dialect s3v4 first (when the s3v4
attempt is accepted the result is s3v4, without regard to the s3v2
attempt), tries s3v2 only when the s3v4 attempt fails, and when both
attempts fail it fails with the s3v2 attempt error annotated with both
dialect names (the s3v4 underlying cause is dropped). -/
theorem probeS3Signature_order (attempt : String → AttemptOutcome) :
    (∀ s, probeSignatureType attempt "s3v4" = Except.ok s →
        probeS3Signature attempt = Except.ok s) ∧
    (∀ e4 s, probeSignatureType attempt "s3v4" = Except.error e4 →
        probeSignatureType attempt "s3v2" = Except.ok s →
        probeS3Signature attempt = Except.ok s) ∧
    (∀ e4 e2, probeSignatureType attempt "s3v4" = Except.error e4 →
        probeSignatureType attempt "s3v2" = Except.error e2 →
        probeS3Signature attempt = Except.error (ProbeError.traceAdd e2 ["s3v4", "s3v2"])) := by
  refine ⟨?_, ?_, ?_⟩
  · intro s h4
    simp [probeS3Signature, h4]
  · intro e4 s h4 h2
    simp [probeS3Signature, h4, h2]
  · intro e4 e2 h4 h2
    simp [probeS3Signature, h4, h2]

/-- Claim C4 (amended, witness): the amended statement at the oracle where
both attempts fail. -/
theorem probeS3Signature_order_witness :
    probeS3Signature attBothMismatch
      = Except.error (ProbeError.traceAdd ⟨"cause-v2", ["s3v2"]⟩ ["s3v4", "s3v2"]) :=
  (probeS3Signature_order attBothMismatch).2.2 ⟨"cause-v4", ["s3v4"]⟩ ⟨"cause-v2", ["s3v2"]⟩
    rfl rfl

/-- Claim C5: within one probe attempt under a given dialect, a Stat
outcome of BucketDoesNotExist or AccessDenied makes the attempt return the
dialect as accepted, while any other error outcome of the attempt (another
Stat error, or a client-construction failure) makes the attempt fail,
which the prober treats as a mismatch of that dialect. -/
theorem probeSignatureType_classification (attempt : String → AttemptOutcome)
    (stype : String) :
    (attempt stype = AttemptOutcome.stat StatResult.bucketDoesNotExist →
        probeSignatureType attempt stype = Except.ok stype) ∧
    (attempt stype = AttemptOutcome.stat StatResult.accessDenied →
        probeSignatureType attempt stype = Except.ok stype) ∧
    (∀ m, attempt stype = AttemptOutcome.stat (StatResult.otherError m) →
        probeSignatureType attempt stype = Except.error ⟨m, [stype]⟩) ∧
    (∀ e, attempt stype = AttemptOutcome.clientError e →
        probeSignatureType attempt stype = Except.error e) := by
  refine ⟨?_, ?_, ?_, ?_⟩
  · intro h
    simp [probeSignatureType, h]
  · intro h
    simp [probeSignatureType, h]
  · intro m h
    simp [probeSignatureType, h, ProbeError.traceAdd]
  · intro e h
    simp [probeSignatureType, h]

/-- Claim C5 (witness): an AccessDenied Stat under s3v4 returns s3v4. -/
theorem probeSignatureType_classification_witness :
    probeSignatureType attAD "s3v4" = Except.ok "s3v4" :=
  (probeSignatureType_classification attAD "s3v4").2.1 rfl

/-- Claim C3: when the fetched peer certificate has a subject key
identifier different from its authority key identifier, trust negotiation
rejects at the untrusted-issuer return site, whatever the confirmation
input and the store-write outcome are (in particular the fingerprint
prompt is never consulted), and nothing is written to the certificate
store. -/
theorem promptTrust_untrustedIssuer (tlsErr url aliasName : String) (c : Cert)
    (hscheme : getScheme url ≠ "http")
    (hmsg : strContainsSub tlsErr unknownAuthority = true)
    (hski : c.subjectKeyId ≠ c.authorityKeyId) :
    ∀ (answerResult : Except String String) (writeResult : Option String),
      promptTrustSelfSignedCert (some tlsErr) (Except.ok c) answerResult writeResult
          url aliasName
        = (TrustOutcome.untrustedIssuer tlsErr, []) := by
  intro answerResult writeResult
  simp [promptTrustSelfSignedCert, hscheme, hmsg, hski]

/-- Claim C3 (witness): a certificate from a different issuer is rejected
even when the answer oracle holds an affirmative confirmation. -/
theorem promptTrust_untrustedIssuer_witness :
    promptTrustSelfSignedCert (some unknownAuthority) (Except.ok certOther)
        (Except.ok "y\n") none "https://server.example" "test"
      = (TrustOutcome.untrustedIssuer unknownAuthority, []) :=
  promptTrust_untrustedIssuer unknownAuthority "https://server.example" "test" certOther
    (by decide) (by decide) (by decide) (Except.ok "y\n") none

/-- Claim C8: once the self-signed ceremony reaches the confirmation, any
answer that does not lower-case to y or yes (with its newline) is rejected
at the user-declined return site with nothing written to the certificate
store; and with the store write succeeding, the pinned certificate is
returned and stored exactly when the answer is affirmative. -/
theorem promptTrust_confirmation (tlsErr url aliasName : String) (c : Cert)
    (hscheme : getScheme url ≠ "http")
    (hmsg : strContainsSub tlsErr unknownAuthority = true)
    (hski : c.subjectKeyId = c.authorityKeyId) :
    (∀ ans writeResult, lowerString ans ≠ "y\n" → lowerString ans ≠ "yes\n" →
        promptTrustSelfSignedCert (some tlsErr) (Except.ok c) (Except.ok ans)
            writeResult url aliasName
          = (TrustOutcome.userDeclined tlsErr, [])) ∧
    (∀ ans,
        promptTrustSelfSignedCert (some tlsErr) (Except.ok c) (Except.ok ans)
            none url aliasName
          = (TrustOutcome.pinned c, [(aliasName, c)]) ↔
        (lowerString ans = "y\n" ∨ lowerString ans = "yes\n")) := by
  constructor
  · intro ans writeResult hy hyes
    simp [promptTrustSelfSignedCert, hscheme, hmsg, hski, hy, hyes]
  · intro ans
    by_cases hy : lowerString ans = "y\n"
    · simp [promptTrustSelfSignedCert, hscheme, hmsg, hski, hy]
    · by_cases hyes : lowerString ans = "yes\n"
      · simp [promptTrustSelfSignedCert, hscheme, hmsg, hski, hy, hyes]
      · simp [promptTrustSelfSignedCert, hscheme, hmsg, hski, hy, hyes]

/-- Claim C8 (witness): at an affirmative answer the self-signed
certificate is pinned and stored; the amended-free statement evaluated at
a concrete ceremony. -/
theorem promptTrust_confirmation_witness :
    promptTrustSelfSignedCert (some unknownAuthority) (Except.ok certSelf)
        (Except.ok "Yes\n") none "https://server.example" "test"
      = (TrustOutcome.pinned certSelf, [("test", certSelf)]) :=
  ((promptTrust_confirmation unknownAuthority "https://server.example" "test" certSelf
      (by decide) (by decide) (by decide)).2 "Yes\n").mpr (Or.inr (by decide))

/-- Claim C9: when the initial connection attempt with the process-wide
roots fails with an error that does not contain the unknown-authority
text, trust negotiation propagates exactly that failure, returns no pinned
certificate and writes nothing, whatever the remaining oracles hold. -/
theorem promptTrust_propagates (tlsErr url aliasName : String)
    (fetchResult : Except String Cert) (answerResult : Except String String)
    (writeResult : Option String)
    (hscheme : getScheme url ≠ "http")
    (hmsg : strContainsSub tlsErr unknownAuthority = false) :
    promptTrustSelfSignedCert (some tlsErr) fetchResult answerResult writeResult
        url aliasName
      = (TrustOutcome.failure tlsErr, []) := by
  simp [promptTrustSelfSignedCert, hscheme, hmsg]

/-- Claim C9 (witness): a connection-refused failure is propagated as is. -/
theorem promptTrust_propagates_witness :
    promptTrustSelfSignedCert (some "connection refused") (Except.ok certSelf)
        (Except.ok "y\n") none "https://server.example" "test"
      = (TrustOutcome.failure "connection refused", []) :=
  promptTrust_propagates "connection refused" "https://server.example" "test"
    (Except.ok certSelf) (Except.ok "y\n") none (by decide) (by decide)

/-- Claim C6: with an explicit signature dialect supplied, building the S3
configuration invokes the signature probe zero times and the resulting
record carries the supplied dialect verbatim. -/
theorem BuildS3Config_explicitApi (attempt : String → AttemptOutcome)
    (globalRootCAs : Option CertPool)
    (url accessKey secretKey sessionToken api path : String)
    (peerCert : Option Cert) (h : api ≠ "") :
    (BuildS3Config attempt globalRootCAs url accessKey secretKey sessionToken
        api path peerCert).2 = 0 ∧
    Except.map Config.signature
        (BuildS3Config attempt globalRootCAs url accessKey secretKey sessionToken
          api path peerCert).1
      = Except.ok api := by
  cases peerCert with
  | none => simp [BuildS3Config, h, Except.map]
  | some c => simp [BuildS3Config, h, Except.map]

/-- Claim C6 (witness): an explicit s3v2 dialect is used verbatim without
probing. -/
theorem BuildS3Config_explicitApi_witness :
    (BuildS3Config attAD (some []) "https://server.example" "u" "p" "" "s3v2"
        "auto" none).2 = 0 ∧
    Except.map Config.signature
        (BuildS3Config attAD (some []) "https://server.example" "u" "p" "" "s3v2"
          "auto" none).1
      = Except.ok "s3v2" :=
  BuildS3Config_explicitApi attAD (some []) "https://server.example" "u" "p" ""
    "s3v2" "auto" none (by decide)

/-- Claim C2: every successful run of the alias set command whose resolved
credentials type is ldap stores, for the alias being set, an effective
expiry of exactly the clock reading taken at the exchange plus fifty
minutes (one hour of requested validity minus the ten-minute safety
window). -/
theorem mainAliasSet_ldapExpiry (deprecated : Bool)
    (lookupFlag aliasName url api path ctypeFlag : String)
    (ldapEnv : Option String) (accessKey secretKey : String)
    (globalInsecure globalJSON stdoutIsTerminal : Bool)
    (tlsAttempt : Option String) (fetchResult : Except String Cert)
    (answerResult : Except String String) (writeResult : Option String)
    (stsResult : Except String (String × String × String)) (now : Int)
    (attempt : String → AttemptOutcome) (globalRootCAs : Option CertPool)
    (mcCfgAliases m : List (String × AliasConfigV10)) (msg : AliasMessage)
    (cfg : AliasConfigV10)
    (hldap : resolveCredType ctypeFlag ldapEnv = "ldap")
    (hok : mainAliasSet deprecated lookupFlag aliasName url api path ctypeFlag
        ldapEnv accessKey secretKey globalInsecure globalJSON stdoutIsTerminal
        tlsAttempt fetchResult answerResult writeResult stsResult now attempt
        globalRootCAs mcCfgAliases = Except.ok (m, msg))
    (hcfg : lookupAlias m aliasName = some cfg) :
    cfg.expireTime = now + 50 * Minute := by
  cases stsResult with
  | error e =>
    simp [mainAliasSet, hldap] at hok
    repeat' split at hok
    all_goals simp at hok
  | ok t =>
    obtain ⟨ak, sk, tk⟩ := t
    simp [mainAliasSet, hldap] at hok
    repeat' split at hok
    all_goals simp only [Except.ok.injEq, Prod.mk.injEq, reduceCtorEq, false_and] at hok
    all_goals
      (obtain ⟨hm, hmsg⟩ := hok
       subst hm
       simp [setAlias, lookupAlias] at hcfg
       subst hcfg
       simp [StsDefaultExpire, StsWindowTime, Hour, Minute, Second]
       try omega)

/-- The alias record stored by the concrete successful ldap bootstrap used
as witness input (clock reading 0, STS grant ("A", "S", "T")). -/
def ldapWitnessRecord : AliasConfigV10 :=
  { url := "https://h", accessKey := "u", secretKey := "p", api := "s3v4",
    path := "auto", sessionToken := "", aType := "ldap", stsAccessKey := "A",
    stsSecretKey := "S", stsSessionTk := "T", expireTime := 3000000000000 }

/-- The message printed by the concrete successful ldap bootstrap used as
witness input. -/
def ldapWitnessMessage : AliasMessage :=
  { op := "set", aliasName := "a", url := "https://h", accessKey := "u",
    secretKey := "p", api := "s3v4", path := "auto" }

/-- Claim C2 (witness): a concrete ldap bootstrap at clock reading 0
stores effective expiry 3000000000000 nanoseconds, which is fifty
minutes. -/
theorem mainAliasSet_ldapExpiry_witness :
    ldapWitnessRecord.expireTime = 0 + 50 * Minute :=
  mainAliasSet_ldapExpiry false "" "a" "https://h" "s3v4" "auto" "ldap" none "u" "p"
    true false false none (Except.error "x") (Except.error "x") none
    (Except.ok ("A", "S", "T")) 0 attAD (some []) [] [("a", ldapWitnessRecord)]
    ldapWitnessMessage ldapWitnessRecord rfl rfl rfl

/-- Claim C7: a successful bootstrap whose resolved credentials type is
not ldap stores an empty session token and the zero expiry timestamp; a
successful ldap bootstrap whose STS grant carries a non-empty session
token stores that non-empty token and an expiry strictly later than the
clock reading taken at the exchange. -/
theorem mainAliasSet_credKind (deprecated : Bool)
    (lookupFlag aliasName url api path ctypeFlag : String)
    (ldapEnv : Option String) (accessKey secretKey : String)
    (globalInsecure globalJSON stdoutIsTerminal : Bool)
    (tlsAttempt : Option String) (fetchResult : Except String Cert)
    (answerResult : Except String String) (writeResult : Option String)
    (stsResult : Except String (String × String × String)) (now : Int)
    (attempt : String → AttemptOutcome) (globalRootCAs : Option CertPool)
    (mcCfgAliases m : List (String × AliasConfigV10)) (msg : AliasMessage)
    (cfg : AliasConfigV10) :
    (resolveCredType ctypeFlag ldapEnv ≠ "ldap" →
        mainAliasSet deprecated lookupFlag aliasName url api path ctypeFlag
            ldapEnv accessKey secretKey globalInsecure globalJSON stdoutIsTerminal
            tlsAttempt fetchResult answerResult writeResult stsResult now attempt
            globalRootCAs mcCfgAliases = Except.ok (m, msg) →
        lookupAlias m aliasName = some cfg →
        cfg.stsSessionTk = "" ∧ cfg.expireTime = 0) ∧
    (∀ ak sk tok, resolveCredType ctypeFlag ldapEnv = "ldap" →
        stsResult = Except.ok (ak, sk, tok) → tok ≠ "" →
        mainAliasSet deprecated lookupFlag aliasName url api path ctypeFlag
            ldapEnv accessKey secretKey globalInsecure globalJSON stdoutIsTerminal
            tlsAttempt fetchResult answerResult writeResult stsResult now attempt
            globalRootCAs mcCfgAliases = Except.ok (m, msg) →
        lookupAlias m aliasName = some cfg →
        cfg.stsSessionTk = tok ∧ cfg.stsSessionTk ≠ "" ∧ now < cfg.expireTime) := by
  constructor
  · intro hstatic hok hcfg
    have hb : (resolveCredType ctypeFlag ldapEnv == "ldap") = false := by
      simp [hstatic]
    simp [mainAliasSet, hb] at hok
    repeat' split at hok
    all_goals simp only [Except.ok.injEq, Prod.mk.injEq, reduceCtorEq, false_and] at hok
    all_goals
      (obtain ⟨hm, hmsg⟩ := hok
       subst hm
       simp [setAlias, lookupAlias] at hcfg
       subst hcfg
       simp)
  · intro ak sk tok hldap hst htok hok hcfg
    subst hst
    simp [mainAliasSet, hldap] at hok
    repeat' split at hok
    all_goals simp only [Except.ok.injEq, Prod.mk.injEq, reduceCtorEq, false_and] at hok
    all_goals
      (obtain ⟨hm, hmsg⟩ := hok
       subst hm
       simp [setAlias, lookupAlias] at hcfg
       subst hcfg
       refine ⟨rfl, htok, ?_⟩
       simp [StsDefaultExpire, StsWindowTime, Hour, Minute, Second]
       try omega)

/-- Claim C7 (witness): the concrete successful ldap bootstrap stores the
non-empty session token T and an expiry strictly after clock reading 0. -/
theorem mainAliasSet_credKind_witness :
    ldapWitnessRecord.stsSessionTk = "T" ∧ ldapWitnessRecord.stsSessionTk ≠ "" ∧
    (0 : Int) < ldapWitnessRecord.expireTime :=
  (mainAliasSet_credKind false "" "a" "https://h" "s3v4" "auto" "ldap" none "u" "p"
    true false false none (Except.error "x") (Except.error "x") none
    (Except.ok ("A", "S", "T")) 0 attAD (some []) [] [("a", ldapWitnessRecord)]
    ldapWitnessMessage ldapWitnessRecord).2 "A" "S" "T" rfl rfl (by decide) rfl rfl

/-- Claim C10: a successful ldap bootstrap persists the user-supplied
long-lived LDAP username and password in the access-key and secret-key
fields of the alias record, and the short-lived STS access key, secret key
and session token in the separate sts fields. -/
theorem mainAliasSet_ldapStoresBoth (deprecated : Bool)
    (lookupFlag aliasName url api path ctypeFlag : String)
    (ldapEnv : Option String) (accessKey secretKey : String)
    (globalInsecure globalJSON stdoutIsTerminal : Bool)
    (tlsAttempt : Option String) (fetchResult : Except String Cert)
    (answerResult : Except String String) (writeResult : Option String)
    (stsResult : Except String (String × String × String)) (now : Int)
    (attempt : String → AttemptOutcome) (globalRootCAs : Option CertPool)
    (mcCfgAliases m : List (String × AliasConfigV10)) (msg : AliasMessage)
    (cfg : AliasConfigV10) (ak sk tok : String)
    (hldap : resolveCredType ctypeFlag ldapEnv = "ldap")
    (hst : stsResult = Except.ok (ak, sk, tok))
    (hok : mainAliasSet deprecated lookupFlag aliasName url api path ctypeFlag
        ldapEnv accessKey secretKey globalInsecure globalJSON stdoutIsTerminal
        tlsAttempt fetchResult answerResult writeResult stsResult now attempt
        globalRootCAs mcCfgAliases = Except.ok (m, msg))
    (hcfg : lookupAlias m aliasName = some cfg) :
    cfg.accessKey = accessKey ∧ cfg.secretKey = secretKey ∧
    cfg.stsAccessKey = ak ∧ cfg.stsSecretKey = sk ∧ cfg.stsSessionTk = tok := by
  subst hst
  simp [mainAliasSet, hldap] at hok
  repeat' split at hok
  all_goals simp only [Except.ok.injEq, Prod.mk.injEq, reduceCtorEq, false_and] at hok
  all_goals
    (obtain ⟨hm, hmsg⟩ := hok
     subst hm
     simp [setAlias, lookupAlias] at hcfg
     subst hcfg
     simp)

/-- Claim C10 (witness): the concrete successful ldap bootstrap persists
username u and password p in the key fields and the STS grant in the sts
fields. -/
theorem mainAliasSet_ldapStoresBoth_witness :
    ldapWitnessRecord.accessKey = "u" ∧ ldapWitnessRecord.secretKey = "p" ∧
    ldapWitnessRecord.stsAccessKey = "A" ∧ ldapWitnessRecord.stsSecretKey = "S" ∧
    ldapWitnessRecord.stsSessionTk = "T" :=
  mainAliasSet_ldapStoresBoth false "" "a" "https://h" "s3v4" "auto" "ldap" none
    "u" "p" true false false none (Except.error "x") (Except.error "x") none
    (Except.ok ("A", "S", "T")) 0 attAD (some []) [] [("a", ldapWitnessRecord)]
    ldapWitnessMessage ldapWitnessRecord "A" "S" "T" rfl rfl rfl rfl

end MC
